import Mathlib

/-!
Verification development for the Cash-Book ledger core
(shared cashbook: snapshot model, aggregation engine, out-party entry
mutations, day-end operation, archive log, local cache store, remote
relay client, and the polling reconciliation loop).

Each definition is a shallow embedding of the corresponding source
function; comments name the source file and lines it was read from.
JavaScript numbers carrying money are modelled as `Int` (all the
operations involved are sums and differences of whole numbers);
`JSON.stringify` equality of two in-memory snapshots is modelled by
structural equality of the embedded values (the serializer is
deterministic and injective on the data model).
-/

/-- src/types.ts lines 8-12: payment methods CASH, CARD, PAYPAL. -/
inductive PaymentMethod
  | CASH
  | CARD
  | PAYPAL
deriving DecidableEq, BEq

/-- src/types.ts lines 14-19: an out-party entry. -/
structure OutPartyEntry where
  id : String
  index : Nat
  amount : Int
  method : PaymentMethod
deriving DecidableEq

/-- src/types.ts lines 21-28: a main-section entry. -/
structure MainEntry where
  id : String
  roomNo : String
  description : String
  method : PaymentMethod
  cashIn : Int
  cashOut : Int
deriving DecidableEq

/-- src/types.ts lines 34-37: advisory exchange rates. -/
structure ExchangeRates where
  usd : Int
  eur : Int
deriving DecidableEq

/-- src/types.ts lines 30-39: the synchronized snapshot (CashBookState). -/
structure CashBookState where
  currentDate : String
  outPartyEntries : List OutPartyEntry
  mainEntries : List MainEntry
  exchangeRates : ExchangeRates
  openingBalance : Int
deriving DecidableEq

/-- src/types.ts lines 41-44: an archive record (HistoryRecord). -/
structure HistoryRecord where
  date : String
  data : CashBookState
deriving DecidableEq

/-- The out-party per-method subtotal accumulator of `calc`
(src/App.tsx line 123: `{ cash: 0, card: 0, paypal: 0 }`). -/
structure OpSubtotals where
  cash : Int
  card : Int
  paypal : Int
deriving DecidableEq

/-- All values computed by the `calc` memo (src/App.tsx lines 116-149),
including the intermediate let-bindings. -/
structure CalcResult where
  op : OpSubtotals
  opTotal : Int
  mainCashIn : Int
  mainCashOut : Int
  mainCard : Int
  mainPaypal : Int
  grandCardTotal : Int
  grandPaypalTotal : Int
  finalCashInTotal : Int
  finalCashOutTotal : Int
  finalBalance : Int
deriving DecidableEq

/-- The reducer of src/App.tsx lines 118-123: three non-exclusive `if`
statements, each adding `curr.amount` to its bucket when the method
matches. -/
def opReduce (acc : OpSubtotals) (curr : OutPartyEntry) : OpSubtotals :=
  let acc1 := if curr.method = PaymentMethod.CASH then
    { acc with cash := acc.cash + curr.amount } else acc
  let acc2 := if curr.method = PaymentMethod.CARD then
    { acc1 with card := acc1.card + curr.amount } else acc1
  if curr.method = PaymentMethod.PAYPAL then
    { acc2 with paypal := acc2.paypal + curr.amount } else acc2

/-- The Aggregation Engine: src/App.tsx lines 116-149 (`calc`), equal on
typed inputs to the `totals` memo of src/unnamed/part_002 lines 119-155
(whose extra `|| 0` coercions are identities on present numeric fields). -/
def calcTotals (s : CashBookState) : CalcResult :=
  let op := s.outPartyEntries.foldl opReduce ⟨0, 0, 0⟩
  let opTotal := op.cash + op.card + op.paypal
  let mainCashIn := s.mainEntries.foldl (fun sum e => sum + e.cashIn) 0
  let mainCashOut := s.mainEntries.foldl (fun sum e => sum + e.cashOut) 0
  let mainCard :=
    (s.mainEntries.filter fun e => e.method == PaymentMethod.CARD).foldl
      (fun sum e => sum + e.cashIn) 0
  let mainPaypal :=
    (s.mainEntries.filter fun e => e.method == PaymentMethod.PAYPAL).foldl
      (fun sum e => sum + e.cashIn) 0
  let grandCardTotal := mainCard + op.card
  let grandPaypalTotal := mainPaypal + op.paypal
  let finalCashInTotal := mainCashIn + opTotal
  let finalCashOutTotal := mainCashOut + grandCardTotal + grandPaypalTotal
  let finalBalance := finalCashInTotal - finalCashOutTotal
  ⟨op, opTotal, mainCashIn, mainCashOut, mainCard, mainPaypal,
   grandCardTotal, grandPaypalTotal, finalCashInTotal, finalCashOutTotal,
   finalBalance⟩

/-- Default exchange rates (src/App.tsx line 42). -/
def rates0 : ExchangeRates := ⟨310, 366⟩

/-- The scenario snapshot of the spec (section 8): out-party entries
[{amount:100,CASH},{amount:50,CARD}] and main entries
[{cashIn:200,cashOut:30,CASH},{cashIn:40,cashOut:0,CARD}]. -/
def scenarioSnap : CashBookState :=
  ⟨"01/01/2024",
   [⟨"op1", 1, 100, PaymentMethod.CASH⟩, ⟨"op2", 2, 50, PaymentMethod.CARD⟩],
   [⟨"m1", "", "", PaymentMethod.CASH, 200, 30⟩,
    ⟨"m2", "", "", PaymentMethod.CARD, 40, 0⟩],
   rates0, 0⟩

/-- C1: on the scenario snapshot the Aggregation Engine returns exactly
out-party subtotals cash=100, card=50, paypal=0; opTotal=150;
mainCashIn=240; mainCashOut=30; mainCard=40; grandCardTotal=90;
grandPaypalTotal=0; FinalCashIn=390; FinalCashOut=120; FinalBalance=270. -/
theorem calcTotals_scenario_exact :
    (calcTotals scenarioSnap).op.cash = 100 ∧
    (calcTotals scenarioSnap).op.card = 50 ∧
    (calcTotals scenarioSnap).op.paypal = 0 ∧
    (calcTotals scenarioSnap).opTotal = 150 ∧
    (calcTotals scenarioSnap).mainCashIn = 240 ∧
    (calcTotals scenarioSnap).mainCashOut = 30 ∧
    (calcTotals scenarioSnap).mainCard = 40 ∧
    (calcTotals scenarioSnap).grandCardTotal = 90 ∧
    (calcTotals scenarioSnap).grandPaypalTotal = 0 ∧
    (calcTotals scenarioSnap).finalCashInTotal = 390 ∧
    (calcTotals scenarioSnap).finalCashOutTotal = 120 ∧
    (calcTotals scenarioSnap).finalBalance = 270 := by
  decide

/-- src/App.tsx lines 152-161 (`addOutParty`), identical in logic to
src/unnamed/part_002 lines 158-161 (`addOP`): append a fresh entry with
`index := length + 1`, `amount := 0`, `method := CASH`. -/
def addOP (l : List OutPartyEntry) (newId : String) : List OutPartyEntry :=
  l ++ [{ id := newId, index := l.length + 1, amount := 0,
          method := PaymentMethod.CASH }]

/-- The `.map((e, i) => ({ ...e, index: i + 1 }))` renumbering of
src/App.tsx line 171, written as a recursion carrying the 0-based
position `n` of the head. -/
def reindexOP : List OutPartyEntry → Nat → List OutPartyEntry
  | [], _ => []
  | e :: es, n => { e with index := n + 1 } :: reindexOP es (n + 1)

/-- src/App.tsx lines 169-173 (`delOutParty`) = src/unnamed/part_002
lines 169-173 (`delOP`): drop the entry with the given id, then
renumber every survivor to its 1-based position. -/
def delOP (l : List OutPartyEntry) (targetId : String) : List OutPartyEntry :=
  reindexOP (l.filter fun e => e.id != targetId) 0

/-- An add or delete operation on the out-party list. -/
inductive OPAction
  | add (newId : String)
  | del (targetId : String)

/-- Apply one out-party mutation. -/
def applyOP (l : List OutPartyEntry) : OPAction → List OutPartyEntry
  | .add i => addOP l i
  | .del i => delOP l i

/-- Apply a sequence of out-party mutations starting from the empty list. -/
def applyOPs (acts : List OPAction) : List OutPartyEntry :=
  acts.foldl applyOP []

/-- `checkFrom l n` decides whether the entries of `l` carry the
consecutive indices n, n+1, ... in order. -/
def checkFrom : List OutPartyEntry → Nat → Bool
  | [], _ => true
  | e :: es, n => (e.index == n) && checkFrom es (n + 1)

/-- Decides the renumbering invariant: `entries[i].index == i + 1`
for every position `i`. -/
def indexedOk (l : List OutPartyEntry) : Bool := checkFrom l 1

lemma checkFrom_append (l : List OutPartyEntry) (e : OutPartyEntry) (n : Nat) :
    checkFrom (l ++ [e]) n = (checkFrom l n && (e.index == n + l.length)) := by
  induction l generalizing n with
  | nil => simp [checkFrom]
  | cons a as ih =>
    have h : n + 1 + as.length = n + (as.length + 1) := by omega
    simp [checkFrom, ih, h, Bool.and_assoc]

lemma reindexOP_checkFrom (l : List OutPartyEntry) (n : Nat) :
    checkFrom (reindexOP l n) (n + 1) = true := by
  induction l generalizing n with
  | nil => rfl
  | cons e es ih => simp [reindexOP, checkFrom, ih]

lemma applyOP_indexed (l : List OutPartyEntry) (a : OPAction)
    (h : indexedOk l = true) : indexedOk (applyOP l a) = true := by
  cases a with
  | add i =>
    show checkFrom (addOP l i) 1 = true
    unfold addOP
    rw [checkFrom_append]
    simp [indexedOk] at h
    simp [h, Nat.add_comm 1 l.length]
  | del i =>
    exact reindexOP_checkFrom _ 0

/-- C9: for every sequence of add and delete operations on
`outPartyEntries` starting from the empty list, after each operation
every entry satisfies `entries[i].index == i + 1` (quantifying over all
operation sequences covers every intermediate state as well). -/
theorem outParty_index_invariant (acts : List OPAction) :
    indexedOk (applyOPs acts) = true := by
  have gen : ∀ (as : List OPAction) (l : List OutPartyEntry),
      indexedOk l = true → indexedOk (as.foldl applyOP l) = true := by
    intro as
    induction as with
    | nil => intro l h; exact h
    | cons a as ih => intro l h; exact ih _ (applyOP_indexed l a h)
  exact gen acts [] rfl

/-- src/services/syncService.ts lines 74-78 (`saveToHistory`), identical
in all variants: prepend the new record to the stored list, then keep
only the first 100 records. -/
def saveToHistory (r : HistoryRecord) (stored : List HistoryRecord) :
    List HistoryRecord :=
  (r :: stored).take 100

/-- A sequence of `saveToHistory` calls applied in order. -/
def applyInserts (stored : List HistoryRecord) (rs : List HistoryRecord) :
    List HistoryRecord :=
  rs.foldl (fun h r => saveToHistory r h) stored

/-- Possible contents of the persisted archive-list key: never written,
written but not valid JSON, or a parsed record list. -/
inductive HistCache
  | empty
  | corrupt
  | val (l : List HistoryRecord)

/-- src/unnamed/part_001 lines 76-84 (`getHistory`, both copies): missing
key and unparseable payload both yield the empty list via try/catch. -/
def getHistoryBlob : HistCache → List HistoryRecord
  | .empty => []
  | .corrupt => []
  | .val l => l

/-- src/services/syncService.ts lines 80-83 (`getHistory`, same shape in
src/unnamed/part_000 lines 56-59): `JSON.parse` runs outside any
try/catch, so a stored payload that is not valid JSON throws a
SyntaxError to the caller, modelled as `Except.error`. -/
def getHistoryKv : HistCache → Except Unit (List HistoryRecord)
  | .empty => .ok []
  | .corrupt => .error ()
  | .val l => .ok l

lemma take_cons_take (n : Nat) (r : HistoryRecord) (xs : List HistoryRecord) :
    (r :: xs.take (n + 1)).take (n + 1) = (r :: xs).take (n + 1) := by
  simp [List.take_succ_cons, List.take_take, Nat.min_eq_left (Nat.le_succ n)]

lemma applyInserts_take (rs : List HistoryRecord) (acc : List HistoryRecord) :
    applyInserts (acc.take 100) rs = (rs.reverse ++ acc).take 100 := by
  induction rs generalizing acc with
  | nil => simp [applyInserts]
  | cons r rs ih =>
    have h1 : saveToHistory r (acc.take 100) = (r :: acc).take 100 :=
      take_cons_take 99 r acc
    have h2 := ih (r :: acc)
    simp only [applyInserts, List.foldl_cons] at h2 ⊢
    rw [h1, h2]
    simp [List.reverse_cons, List.append_assoc]

/-- A distinct archive record per step number, used for the concrete
150-insert scenario. -/
def sampleRec (n : Nat) : HistoryRecord := ⟨toString n, scenarioSnap⟩

/-- C8: starting from an empty archive, after any sequence of inserts the
persisted list equals the reversed insert sequence truncated to 100
(newest first, oldest dropped), so its length never exceeds 100; in
particular 150 sequential inserts leave exactly the 100 most recently
inserted records, newest first, and `listArchive` returns that list. -/
theorem archive_cap_invariant (rs : List HistoryRecord) :
    applyInserts [] rs = rs.reverse.take 100 ∧
    (applyInserts [] rs).length ≤ 100 ∧
    applyInserts [] ((List.range 150).map sampleRec) =
      (((List.range 150).map sampleRec).reverse).take 100 ∧
    (applyInserts [] ((List.range 150).map sampleRec)).length = 100 ∧
    getHistoryBlob (HistCache.val (applyInserts [] rs)) = applyInserts [] rs := by
  have base : ∀ l : List HistoryRecord, applyInserts [] l = l.reverse.take 100 := by
    intro l
    have h := applyInserts_take l []
    simpa using h
  refine ⟨base rs, ?_, base _, ?_, rfl⟩
  · rw [base rs, List.length_take]
    exact Nat.min_le_left _ _
  · rw [base, List.length_take, List.length_reverse, List.length_map,
      List.length_range]
    decide

/-- Gregorian leap-year rule (what JavaScript `Date` implements). -/
def isLeap (y : Nat) : Bool :=
  (y % 4 == 0 && y % 100 != 0) || y % 400 == 0

/-- Days in a month of a given year. -/
def daysInMonth (m y : Nat) : Nat :=
  if m = 2 then (if isLeap y then 29 else 28)
  else if m = 4 ∨ m = 6 ∨ m = 9 ∨ m = 11 then 30
  else 31

/-- A calendar date (day/month/year), standing for a JavaScript `Date`
at midnight local time. -/
structure CalDate where
  day : Nat
  month : Nat
  year : Nat
deriving DecidableEq

/-- `d.setDate(d.getDate() + 1)`: advance one calendar day with
month/year rollover. -/
def nextDay (d : CalDate) : CalDate :=
  if d.day < daysInMonth d.month d.year then ⟨d.day + 1, d.month, d.year⟩
  else if d.month < 12 then ⟨1, d.month + 1, d.year⟩
  else ⟨1, 1, d.year + 1⟩

/-- Two-digit zero padding used by `toLocaleDateString` fields. -/
def pad2 (n : Nat) : String :=
  if n < 10 then "0" ++ toString n else toString n

/-- `Date.toLocaleDateString('en-GB')`: dd/mm/yyyy. -/
def formatGB (d : CalDate) : String :=
  pad2 d.day ++ "/" ++ pad2 d.month ++ "/" ++ toString d.year

/-- src/App.tsx lines 199-212 (`handleDayEnd`) = src/unnamed/part_002
lines 191-203 (`doDayEnd`): archive the pre-reset snapshot under its
`currentDate`, then replace the state with empty entry lists, the same
exchange rates, `openingBalance` set to the computed final balance, and
`currentDate` formatted from `new Date()` advanced by one day — the
wall clock `today` is an explicit parameter here because the source
reads it from the environment, not from the snapshot. -/
def doDayEnd (s : CashBookState) (today : CalDate)
    (hist : List HistoryRecord) : CashBookState × List HistoryRecord :=
  let histNext := saveToHistory ⟨s.currentDate, s⟩ hist
  ({ currentDate := formatGB (nextDay today)
   , outPartyEntries := []
   , mainEntries := []
   , exchangeRates := s.exchangeRates
   , openingBalance := (calcTotals s).finalBalance }, histNext)

/-- An empty ledger snapshot dated 01/01/2024 (the claim C2 scenario date). -/
def snapA : CashBookState := ⟨"01/01/2024", [], [], rates0, 0⟩

/-- A snapshot differing from `snapA` (a nonzero opening balance). -/
def snapB : CashBookState := ⟨"01/01/2024", [], [], rates0, 5⟩

/-- C2 counterexample: day-end does not advance the snapshot's
`currentDate` by one day — it formats the wall-clock date plus one.
Running day-end on a snapshot whose `currentDate` is "01/01/2024" while
the wall clock reads 15/03/2024 yields `currentDate` "16/03/2024",
not the "02/01/2024" the claim requires. -/
theorem dayEnd_date_counterexample :
    (doDayEnd snapA ⟨15, 3, 2024⟩ []).1.currentDate = "16/03/2024" ∧
    ("16/03/2024" : String) ≠ "02/01/2024" := by
  decide

/-- C2 amended: day-end prepends the ArchiveRecord
{date: currentDate, data: pre-reset snapshot} to the archive (truncated
to 100 records), and replaces the state with empty entry lists, the
carried-forward exchange rates, `openingBalance` equal to the computed
final balance, and `currentDate` equal to the wall-clock date advanced
by one calendar day — which coincides with the old `currentDate`
advanced by one day exactly when the wall clock still formats to it
(e.g. a wall clock of 01/01/2024 yields "02/01/2024"). -/
theorem dayEnd_behavior (s : CashBookState) (today : CalDate)
    (hist : List HistoryRecord) :
    (doDayEnd s today hist).1.outPartyEntries = [] ∧
    (doDayEnd s today hist).1.mainEntries = [] ∧
    (doDayEnd s today hist).1.exchangeRates = s.exchangeRates ∧
    (doDayEnd s today hist).1.openingBalance = (calcTotals s).finalBalance ∧
    (doDayEnd s today hist).1.currentDate = formatGB (nextDay today) ∧
    (doDayEnd s today hist).2 = (⟨s.currentDate, s⟩ :: hist).take 100 ∧
    formatGB (nextDay ⟨1, 1, 2024⟩) = "02/01/2024" := by
  exact ⟨rfl, rfl, rfl, rfl, rfl, rfl, by decide⟩

/-- The per-device sync state of src/unnamed/part_002: the React `state`
(line 38), the `stateJsonRef` serialization marker (line 49, modelled by
the snapshot value itself), and a ghost flag marking the window in which
a `saveState` promise started by `masterUpdate` (line 115) has not yet
settled — the source keeps no such variable, and nothing in it reads
one, which is exactly what claim C3 is about. -/
structure Device where
  state : CashBookState
  lastKnown : CashBookState
  pushing : Bool
deriving DecidableEq

/-- The synchronous prefix of `masterUpdate` (src/unnamed/part_002 lines
111-116): set the state, overwrite `stateJsonRef` with the new
serialization, and start the push (ghost flag raised). -/
def masterUpdateStart (_d : Device) (next : CashBookState) : Device :=
  ⟨next, next, true⟩

/-- The `saveState` promise settling (success or failure): only the
ghost flag changes — the source runs no code at that point. -/
def pushSettle (d : Device) : Device :=
  { d with pushing := false }

/-- One tick of the 1.2-second reconciliation loop, src/unnamed/part_002
lines 75-84: if the fetch produced a (shape-valid) snapshot whose
serialization differs from `stateJsonRef`, adopt it and update the
marker; otherwise do nothing. No flag about an in-flight push is
consulted. -/
def syncLoopTick (d : Device) (cloud : Option CashBookState) : Device :=
  match cloud with
  | none => d
  | some c => if c = d.lastKnown then d else ⟨c, c, d.pushing⟩

/-- C3 counterexample: with a push in flight (ghost flag raised), a
reconciliation tick that fetches a remote snapshot differing from the
current one adopts it anyway — the code has no suppression guard. -/
theorem syncLoopTick_adopts_during_push :
    (syncLoopTick ⟨snapA, snapA, true⟩ (some snapB)).state = snapB ∧
    snapB ≠ snapA := by
  decide

/-- C3 amended: no suppression guard exists — a tick during an in-flight
push behaves exactly like any other tick, adopting any fetched snapshot
that differs from the last-known serialization marker and ignoring an
absent fetch; the race is mitigated only by `masterUpdate` synchronously
setting the marker to the pushed snapshot before starting the push, so a
tick that fetches the just-pushed value adopts nothing, while a tick
fetching a stale differing value adopts it even mid-push. -/
theorem syncLoopTick_no_guard (s lk c n : CashBookState) (p : Bool)
    (d : Device) :
    (syncLoopTick ⟨s, lk, true⟩ (some c)).state
      = (syncLoopTick ⟨s, lk, false⟩ (some c)).state ∧
    (syncLoopTick ⟨s, lk, p⟩ (some c)).state = (if c = lk then s else c) ∧
    syncLoopTick ⟨s, lk, p⟩ none = ⟨s, lk, p⟩ ∧
    syncLoopTick (masterUpdateStart d n) (some n) = masterUpdateStart d n ∧
    (pushSettle (masterUpdateStart d n)).state = n := by
  refine ⟨?_, ?_, rfl, ?_, rfl⟩
  · by_cases h : c = lk <;> simp [syncLoopTick, h]
  · by_cases h : c = lk <;> simp [syncLoopTick, h]
  · simp [syncLoopTick, masterUpdateStart]

/-- The shape a parsed remote JSON object may have at the points the
relay client inspects it: the two entry-list fields may each be present
(a truthy array) or missing/falsy. src/unnamed/part_001 line 52 tests
exactly `data && (data.outPartyEntries || data.mainEntries)`. -/
structure SnapLike where
  outPartyEntries : Option (List OutPartyEntry)
  mainEntries : Option (List MainEntry)
deriving DecidableEq

/-- The kvstore wrapper object (src/types.ts lines 46-49, SyncData) as it
arrives from the remote: a parsed JSON object whose `state` and
`updatedAt` fields may or may not be present — src/services/syncService.ts
line 47 never checks. -/
structure KvPayload where
  state : Option SnapLike
  updatedAt : Option Int
deriving DecidableEq

/-- Contents of the jsonblob variants' local-cache key
(src/unnamed/part_001 STORAGE_KEY): absent, unparseable, or a parsed
snapshot-shaped value. -/
inductive LocalCache
  | empty
  | corrupt
  | val (s : SnapLike)
deriving DecidableEq

/-- Contents of the kvstore variant's local-cache key
(src/services/syncService.ts STORAGE_KEY), which stores the whole
SyncData wrapper. -/
inductive KvCache
  | empty
  | corrupt
  | val (p : KvPayload)
deriving DecidableEq

/-- The local fallback of src/unnamed/part_001 lines 60-67: missing key
or unparseable payload yield null, otherwise the parsed value. -/
def loadLocal : LocalCache → Option SnapLike
  | .empty => none
  | .corrupt => none
  | .val s => some s

/-- The local fallback of src/services/syncService.ts lines 57-63:
`JSON.parse(local).state` inside try/catch — a missing key or an
unparseable payload yield null, and a parsed wrapper yields its `state`
field (undefined, hence absent, when the field is missing). -/
def kvLoad : KvCache → Option SnapLike
  | .empty => none
  | .corrupt => none
  | .val p => p.state

/-- What one remote GET can come to by the time its body is inspected:
the fetch threw, the response was non-2xx, `response.json()` threw,
it parsed to a falsy value (null), or it parsed to an object. -/
inductive BlobFetch
  | netErr
  | notOk
  | badJson
  | jsonNull
  | payload (v : SnapLike)

/-- Same outcomes for the kvstore GET, whose body is a SyncData wrapper. -/
inductive KvFetch
  | netErr
  | notOk
  | badJson
  | jsonNull
  | payload (p : KvPayload)

/-- src/unnamed/part_001 lines 38-68 (`getState`, identical in the
master-relay copy at lines 127-156): a 2xx object payload is returned
only if at least one entry-list field is present, and every other
outcome falls through to the local cache. -/
def getStateBlob (f : BlobFetch) (c : LocalCache) : Option SnapLike :=
  match f with
  | .payload v =>
      if v.outPartyEntries.isSome || v.mainEntries.isSome then some v
      else loadLocal c
  | _ => loadLocal c

/-- src/services/syncService.ts lines 42-64 (`getState`): a 2xx parsed
object is written to the local cache and its `state` field returned with
no shape check at all; a 2xx null is first written to the cache (leaving
it unparseable as a wrapper) and then `data.state` throws, so the catch
falls back to that just-corrupted cache and yields null; all other
outcomes leave the cache alone and fall back to it. Returns the result
and the cache afterwards. -/
def getStateKv (f : KvFetch) (c : KvCache) : Option SnapLike × KvCache :=
  match f with
  | .payload p => (p.state, KvCache.val p)
  | .jsonNull => (none, KvCache.corrupt)
  | .netErr => (kvLoad c, c)
  | .notOk => (kvLoad c, c)
  | .badJson => (kvLoad c, c)

/-- The JSON bodies the three push variants write, by shape:
the snapshot alone, the snapshot with an added `lastSyncTimestamp`
field, or the `{state, updatedAt}` SyncData wrapper. -/
inductive WirePayload
  | plain (s : CashBookState)
  | stamped (s : CashBookState) (t : Int)
  | wrapped (s : CashBookState) (t : Int)
deriving DecidableEq

/-- Outcome of the PUT/POST transport: the fetch threw, or a response
arrived with the given `ok` flag. -/
inductive PushOutcome
  | netErr
  | resp (ok : Bool)

/-- Observable effect of one boolean-returning push: the payload written
to the local cache, the body of the attempted remote request, and the
resolved boolean. -/
structure PushEffect where
  localWrite : WirePayload
  remoteBody : WirePayload
  result : Bool
deriving DecidableEq

/-- src/unnamed/part_001 lines 15-36 (`saveState`, jsonblob): cache and
remote body are both the serialization of the snapshot itself; the
result is `response.ok`, or false when the fetch threw. -/
def saveStateBlob (s : CashBookState) (r : PushOutcome) : PushEffect :=
  ⟨.plain s, .plain s, match r with | .netErr => false | .resp ok => ok⟩

/-- src/unnamed/part_001 lines 100-125 (`saveState`, master relay): the
cache gets the plain serialization but the remote body is the snapshot
spread together with `lastSyncTimestamp: Date.now()`. -/
def saveStateMaster (s : CashBookState) (now : Int) (r : PushOutcome) :
    PushEffect :=
  ⟨.plain s, .stamped s now, match r with | .netErr => false | .resp ok => ok⟩

/-- Observable effect of the kvstore push, which resolves with no value. -/
structure KvPushEffect where
  localWrite : WirePayload
  remoteBody : WirePayload
deriving DecidableEq

/-- src/services/syncService.ts lines 21-40 (`saveState`): both cache
and remote body are the `{state, updatedAt}` wrapper; any transport
error is caught and the promise resolves with no success indicator. -/
def saveStateKv (s : CashBookState) (now : Int) : KvPushEffect :=
  ⟨.wrapped s now, .wrapped s now⟩

/-- The value the kvstore `saveState` promise resolves with
(src/services/syncService.ts lines 21-40): the function is declared
`Promise<void>`, its try/catch discards any thrown transport error, and
the body never reads `response.ok` — so for every snapshot and every
transport outcome, thrown or non-2xx included, the promise resolves
with no value (undefined), modelled as `none : Option Bool`. -/
def saveStateKvResolution (_s : CashBookState) (_r : PushOutcome) :
    Option Bool :=
  none

/-- The remote store after a push attempt: a 2xx PUT/POST replaces the
stored value wholesale, any other outcome leaves the prior value. -/
def remoteAfter (prev : Option WirePayload) (body : WirePayload)
    (r : PushOutcome) : Option WirePayload :=
  match r with
  | .resp true => some body
  | .resp false => prev
  | .netErr => prev

/-- C4 counterexample: the master-relay push does not write the
serialization of the snapshot to the remote store — the remote body
carries an extra `lastSyncTimestamp` field, so it differs from the
payload simultaneously written to the local cache. -/
theorem masterPush_payload_mismatch :
    (saveStateMaster snapA 5 (.resp true)).remoteBody ≠
      (saveStateMaster snapA 5 (.resp true)).localWrite := by
  decide

/-- C4 amended: the jsonblob push writes exactly the serialization of
the snapshot to both the remote store and the local cache and resolves
`response.ok` (false on a thrown fetch); the master-relay push writes
the plain serialization locally but a timestamp-augmented body remotely;
the kvstore push writes the identical `{state, updatedAt}` wrapper to
both but resolves no boolean; a 2xx push replaces any prior remote
value wholesale. -/
theorem push_payload_behavior (s : CashBookState) (now : Int)
    (r : PushOutcome) (prev : Option WirePayload) (b : WirePayload) :
    (saveStateBlob s r).remoteBody = WirePayload.plain s ∧
    (saveStateBlob s r).localWrite = WirePayload.plain s ∧
    (saveStateBlob s (.resp true)).result = true ∧
    (saveStateMaster s now r).localWrite = WirePayload.plain s ∧
    (saveStateMaster s now r).remoteBody = WirePayload.stamped s now ∧
    (saveStateKv s now).remoteBody = (saveStateKv s now).localWrite ∧
    remoteAfter prev b (.resp true) = some b := by
  exact ⟨rfl, rfl, rfl, rfl, rfl, rfl, rfl⟩

/-- C5 counterexample: for the cited kvstore push
(src/services/syncService.ts lines 21-40) the claim's "push resolves to
false" is false — on a thrown fetch the promise resolves with no value
(undefined, not false), and on a non-2xx response the body never reads
`response.ok`, so the failure is not even detected. -/
theorem kvPush_resolves_void :
    saveStateKvResolution snapA PushOutcome.netErr = none ∧
    saveStateKvResolution snapA (PushOutcome.resp false) = none ∧
    saveStateKvResolution snapA PushOutcome.netErr ≠ some false := by
  decide

/-- C5 amended: every transport failure is absorbed locally — a thrown
fetch or a non-2xx response makes both boolean-returning jsonblob
pushes resolve false, while the kvstore push, declared `Promise<void>`,
likewise never propagates the exception but resolves with no value and
never detects a non-2xx response; the fetch paths never escape (they
are total functions here) and on an unavailable remote resolve to the
locally cached snapshot when it exists and parses, and to absent
otherwise; and a reconciliation tick whose fetch yields absent leaves
the device state exactly unchanged. -/
theorem relay_failure_semantics (s : CashBookState) (now : Int)
    (c : LocalCache) (kc : KvCache) (sl : SnapLike) (p : KvPayload)
    (d : Device) :
    (saveStateBlob s .netErr).result = false ∧
    (saveStateBlob s (.resp false)).result = false ∧
    (saveStateMaster s now .netErr).result = false ∧
    (saveStateMaster s now (.resp false)).result = false ∧
    saveStateKvResolution s .netErr = none ∧
    saveStateKvResolution s (.resp false) = none ∧
    getStateBlob .netErr c = loadLocal c ∧
    getStateBlob .notOk c = loadLocal c ∧
    getStateBlob .badJson c = loadLocal c ∧
    loadLocal .empty = none ∧
    loadLocal .corrupt = none ∧
    loadLocal (.val sl) = some sl ∧
    (getStateKv .netErr kc).1 = kvLoad kc ∧
    (getStateKv .netErr kc).2 = kc ∧
    (getStateKv .notOk kc).1 = kvLoad kc ∧
    kvLoad (.val p) = p.state ∧
    syncLoopTick d none = d := by
  exact ⟨rfl, rfl, rfl, rfl, rfl, rfl, rfl, rfl, rfl, rfl, rfl, rfl, rfl,
         rfl, rfl, rfl, rfl⟩

/-- A payload with neither entry-list field: fails the claimed shape
check. -/
def shapelessSnap : SnapLike := ⟨none, none⟩

/-- A well-shaped cached wrapper, to witness that no fallback happens. -/
def goodPayload : KvPayload := ⟨some ⟨some [], some []⟩, some 1⟩

/-- The shapeless remote wrapper of the C6 counterexample. -/
def badPayload : KvPayload := ⟨some shapelessSnap, some 2⟩

/-- C6 counterexample: the kvstore fetch accepts a remote payload whose
`state` has neither entry-list field — it returns it as the current
snapshot instead of treating it as absent, does not fall back to the
well-shaped cached snapshot, and overwrites the cache with the
malformed wrapper. -/
theorem kvFetch_accepts_shapeless :
    (getStateKv (.payload badPayload) (KvCache.val goodPayload)).1
      = some shapelessSnap ∧
    shapelessSnap.outPartyEntries = none ∧
    shapelessSnap.mainEntries = none ∧
    (getStateKv (.payload badPayload) (KvCache.val goodPayload)).1
      ≠ kvLoad (KvCache.val goodPayload) ∧
    (getStateKv (.payload badPayload) (KvCache.val goodPayload)).2
      = KvCache.val badPayload := by
  decide

/-- C6 amended: the jsonblob fetches accept a 2xx object payload exactly
when at least one entry-list field is present, and treat every other
payload (null, unparseable, shapeless) as absent with fallback to the
local cache; the kvstore fetch performs no shape check — it returns the
payload's `state` field unconditionally and caches the raw wrapper. -/
theorem fetch_shape_check_behavior (v : SnapLike) (c : LocalCache)
    (p : KvPayload) (kc : KvCache) :
    getStateBlob (.payload v) c =
      (if v.outPartyEntries.isSome || v.mainEntries.isSome then some v
       else loadLocal c) ∧
    getStateBlob .jsonNull c = loadLocal c ∧
    getStateKv (.payload p) kc = (p.state, KvCache.val p) := by
  exact ⟨rfl, rfl, rfl⟩

/-- C7: a corrupt persisted archive payload makes the kvstore variant's
`getHistory` throw (its `JSON.parse` runs outside any try/catch), while
the jsonblob variants return the empty list as the claim states. -/
theorem getHistoryKv_corrupt_throws :
    getHistoryKv HistCache.corrupt = Except.error () ∧
    getHistoryBlob HistCache.corrupt = [] := by
  exact ⟨rfl, rfl⟩

/-- C10: whenever the kvstore fetch receives a 2xx parsed payload, it
overwrites the local cache key with that payload before returning its
`state` field, so an immediately subsequent local load returns the
just-fetched snapshot; a thrown, non-2xx, or unparseable fetch leaves
the cache exactly as it was. -/
theorem kvFetch_cache_frame (p : KvPayload) (kc : KvCache) :
    (getStateKv (.payload p) kc).2 = KvCache.val p ∧
    (getStateKv (.payload p) kc).1 = p.state ∧
    kvLoad ((getStateKv (.payload p) kc).2) = (getStateKv (.payload p) kc).1 ∧
    getStateKv .netErr kc = (kvLoad kc, kc) ∧
    getStateKv .notOk kc = (kvLoad kc, kc) ∧
    getStateKv .badJson kc = (kvLoad kc, kc) := by
  exact ⟨rfl, rfl, rfl, rfl, rfl, rfl⟩
